import Mathlib

/-!
Shallow embedding of the order/cart/inventory core of the e-commerce
backend: the cart controller (addToCart, updateCartItem, removeFromCart,
clearCart), the order controller (createOrder, cancelMyOrder,
updateOrderStatus) and the product controller's deleteProduct, together
with theorems settling the spec claims about them.

Numbers are modelled as `Int` (JavaScript arithmetic on the integer
inputs the spec discusses); identifiers as `Nat`; the product store as a
function `Nat → Option Product`; fallible endpoints return `Except`,
and the transactional endpoints additionally return the post-state,
which on the error path is the unchanged pre-state (the transaction
abort).
-/

namespace Shop

/-- Order status enumeration, from src/models/order.ts. -/
inductive OrderStatus where
  | PENDING
  | CONFIRMED
  | SHIPPED
  | DELIVERED
  | CANCELLED
deriving DecidableEq, Repr

/-- The fields of a product that the order/cart core reads and writes
(src/models/product.ts). -/
structure Product where
  name : String
  price : Int
  quantity : Int
  inStock : Bool
deriving DecidableEq, Repr

/-- The products collection, keyed by product id. -/
abbrev ProductStore := Nat → Option Product

/-- Write one product document. -/
def setProduct (store : ProductStore) (pid : Nat) (p : Product) : ProductStore :=
  fun i => if i = pid then some p else store i

/-- A cart line item (src/models/cart.ts): product reference, name and
unit-price snapshots, quantity and subtotal. `itemId` models the
subdocument `_id` that updateCartItem / removeFromCart look up. -/
structure CartItem where
  itemId : Nat
  productId : Nat
  productName : String
  price : Int
  quantity : Int
  subtotal : Int
deriving DecidableEq, Repr

/-- A user's cart (src/models/cart.ts). -/
structure Cart where
  items : List CartItem
  total : Int
deriving DecidableEq, Repr

/-- An order line item (src/models/order.ts). -/
structure OrderItem where
  productId : Nat
  productName : String
  price : Int
  quantity : Int
  subtotal : Int
deriving DecidableEq, Repr

/-- An order (src/models/order.ts): immutable item snapshot, total and
status. -/
structure Order where
  items : List OrderItem
  total : Int
  status : OrderStatus
deriving DecidableEq, Repr

/-- The error taxonomy surfaced by the modelled endpoints. -/
inductive Err where
  | productNotFound
  | insufficientStock
  | cartNotFound
  | itemNotFound
  | productNoLongerExists
  | emptyCart
  | productGone (productName : String)
  | insufficientStockFor (productName : String) (available : Int)
  | orderNotFound
  | invalidTransition (current : OrderStatus)
deriving DecidableEq, Repr

/-- Helper from the cart controller: `calculateCartTotal`, the sum of the
items' subtotals. -/
def calculateCartTotal (cart : Cart) : Int :=
  (cart.items.map (fun item => item.subtotal)).sum

/-- The cart created lazily when a user has none. -/
def emptyCart : Cart := { items := [], total := 0 }

/-- Replace the first item satisfying `p` by its image under `f`
(models mutating `cart.items[existingItemIndex]` found by `findIndex`). -/
def updateFirst (p : CartItem → Bool) (f : CartItem → CartItem) :
    List CartItem → List CartItem
  | [] => []
  | item :: rest =>
    if p item then f item :: rest else item :: updateFirst p f rest

/-- Remove the first item satisfying `p` (models `splice(itemIndex, 1)`
at the index found by `findIndex`). -/
def removeFirst (p : CartItem → Bool) : List CartItem → List CartItem
  | [] => []
  | item :: rest => if p item then rest else item :: removeFirst p rest

/-- `addToCart` from the cart controller: validates the product and its
stock, merges quantity into an existing line (recomputing that line's
subtotal from the current product price) or appends a new snapshot line,
then recomputes the total. `newItemId` models the id the store assigns
to a freshly inserted subdocument. -/
def addToCart (store : ProductStore) (cart0 : Option Cart) (productId : Nat)
    (quantity : Int) (newItemId : Nat) : Except Err Cart :=
  match store productId with
  | none => .error .productNotFound
  | some product =>
    if product.inStock = false ∨ product.quantity < quantity then
      .error .insufficientStock
    else
      let cart := cart0.getD emptyCart
      match cart.items.find? (fun item => item.productId == productId) with
      | some existing =>
        let newQuantity := existing.quantity + quantity
        if product.quantity < newQuantity then
          .error .insufficientStock
        else
          let items1 := updateFirst (fun item => item.productId == productId)
            (fun item =>
              { item with quantity := newQuantity,
                          subtotal := product.price * newQuantity }) cart.items
          let cart1 : Cart := { cart with items := items1 }
          .ok { cart1 with total := calculateCartTotal cart1 }
      | none =>
        let newItem : CartItem :=
          { itemId := newItemId, productId := productId,
            productName := product.name, price := product.price,
            quantity := quantity, subtotal := product.price * quantity }
        let cart1 : Cart := { cart with items := cart.items ++ [newItem] }
        .ok { cart1 with total := calculateCartTotal cart1 }

/-- `updateCartItem` from the cart controller: finds the line by item id,
re-validates stock against the current product, sets quantity and
subtotal (from the line's stored unit price), recomputes the total. -/
def updateCartItem (store : ProductStore) (cart0 : Option Cart)
    (itemId : Nat) (quantity : Int) : Except Err Cart :=
  match cart0 with
  | none => .error .cartNotFound
  | some cart =>
    match cart.items.find? (fun i => i.itemId == itemId) with
    | none => .error .itemNotFound
    | some item =>
      match store item.productId with
      | none => .error .productNoLongerExists
      | some product =>
        if product.inStock = false ∨ product.quantity < quantity then
          .error .insufficientStock
        else
          let items1 := updateFirst (fun i => i.itemId == itemId)
            (fun i => { i with quantity := quantity,
                               subtotal := i.price * quantity }) cart.items
          let cart1 : Cart := { cart with items := items1 }
          .ok { cart1 with total := calculateCartTotal cart1 }

/-- `removeFromCart` from the cart controller: fails when the cart or the
item is missing; otherwise splices the line out and recomputes the
total. -/
def removeFromCart (cart0 : Option Cart) (itemId : Nat) : Except Err Cart :=
  match cart0 with
  | none => .error .cartNotFound
  | some cart =>
    if cart.items.any (fun i => i.itemId == itemId) then
      let cart1 : Cart :=
        { cart with items := removeFirst (fun i => i.itemId == itemId) cart.items }
      .ok { cart1 with total := calculateCartTotal cart1 }
    else
      .error .itemNotFound

/-- `clearCart` from the cart controller: empties the items and zeroes
the total. -/
def clearCart (cart0 : Option Cart) : Except Err Cart :=
  match cart0 with
  | none => .error .cartNotFound
  | some cart => .ok { cart with items := [], total := 0 }

/-- Convert a cart line into the order snapshot built by `createOrder`
(`cart.items.map` in the order controller). -/
def toOrderItem (item : CartItem) : OrderItem :=
  { productId := item.productId, productName := item.productName,
    price := item.price, quantity := item.quantity, subtotal := item.subtotal }

/-- The stock-validation loop at the top of `createOrder`: the first
failing item's error, or `none` when every line passes. -/
def validateStock (store : ProductStore) : List CartItem → Option Err
  | [] => none
  | item :: rest =>
    match store item.productId with
    | none => some (.productGone item.productName)
    | some product =>
      if product.inStock = false ∨ product.quantity < item.quantity then
        some (.insufficientStockFor item.productName product.quantity)
      else
        validateStock store rest

/-- One step of the stock-decrement loop in `createOrder`: re-fetch the
product, subtract the line quantity and flip `inStock` off exactly when
the stored quantity lands on zero; a vanished product is skipped. -/
def reserveOne (store : ProductStore) (item : CartItem) : ProductStore :=
  match store item.productId with
  | none => store
  | some product =>
    setProduct store item.productId
      { product with quantity := product.quantity - item.quantity,
                     inStock := if product.quantity - item.quantity = 0 then
                                  false
                                else product.inStock }

/-- The stock-decrement loop of `createOrder` over all cart lines. -/
def applyReservations (store : ProductStore) : List CartItem → ProductStore
  | [] => store
  | item :: rest => applyReservations (reserveOne store item) rest

/-- One step of the stock-release loop in `cancelMyOrder` /
`updateOrderStatus`: add the line quantity back and set `inStock` to
`true` unconditionally; a vanished product is skipped silently. -/
def releaseOne (store : ProductStore) (item : OrderItem) : ProductStore :=
  match store item.productId with
  | none => store
  | some product =>
    setProduct store item.productId
      { product with quantity := product.quantity + item.quantity,
                     inStock := true }

/-- The stock-release loop over all order lines. -/
def applyReleases (store : ProductStore) : List OrderItem → ProductStore
  | [] => store
  | item :: rest => applyReleases (releaseOne store item) rest

/-- The state touched by `createOrder`: the products collection, the
requesting user's cart (if any) and the persisted orders. -/
structure OrderState where
  products : ProductStore
  cart : Option Cart
  orders : List Order

/-- `createOrder` from the order controller, run inside one transaction:
reject an absent or empty cart, validate every line's stock, then —
atomically — persist the PENDING order snapshot carrying the cart's
total, run the stock-decrement loop and delete the cart. On any failure
the transaction aborts and the returned state is the unchanged input. -/
def createOrder (s : OrderState) : Except Err Order × OrderState :=
  match s.cart with
  | none => (.error .emptyCart, s)
  | some cart =>
    if cart.items = [] then
      (.error .emptyCart, s)
    else
      match validateStock s.products cart.items with
      | some e => (.error e, s)
      | none =>
        let newOrder : Order :=
          { items := cart.items.map toOrderItem, total := cart.total,
            status := .PENDING }
        (.ok newOrder,
         { products := applyReservations s.products cart.items,
           cart := none,
           orders := s.orders ++ [newOrder] })

/-- `cancelMyOrder` from the order controller, run inside one
transaction: only a PENDING order may be cancelled; otherwise the
transaction aborts with an error naming the current status and the
returned state is the unchanged input. On success the release loop runs
and the status becomes CANCELLED. -/
def cancelMyOrder (products : ProductStore) (order0 : Option Order) :
    Except Err Order × (ProductStore × Option Order) :=
  match order0 with
  | none => (.error .orderNotFound, (products, order0))
  | some order =>
    if order.status = OrderStatus.PENDING then
      let order1 : Order := { order with status := .CANCELLED }
      (.ok order1, (applyReleases products order.items, some order1))
    else
      (.error (.invalidTransition order.status), (products, order0))

/-- `updateOrderStatus` from the order controller, run inside one
transaction: reject only when the current status is DELIVERED or
CANCELLED; otherwise set the requested status, first running the
release loop when the new status is CANCELLED. -/
def updateOrderStatus (products : ProductStore) (order0 : Option Order)
    (newStatus : OrderStatus) : Except Err Order × (ProductStore × Option Order) :=
  match order0 with
  | none => (.error .orderNotFound, (products, order0))
  | some order =>
    if order.status = OrderStatus.DELIVERED ∨ order.status = OrderStatus.CANCELLED then
      (.error (.invalidTransition order.status), (products, order0))
    else
      let products1 :=
        if newStatus = OrderStatus.CANCELLED then
          applyReleases products order.items
        else products
      (.ok { order with status := newStatus }, (products1, some { order with status := newStatus }))

/-- The effect of `deleteProduct` on one cart: the `$pull` update removes
every line for the product; the follow-up total recalculation then only
touches carts still holding a line for that product — the query that
selects the "affected" carts runs after the pull. -/
def pruneCart (pid : Nat) (cart : Cart) : Cart :=
  let pulled : Cart := { cart with items := cart.items.filter (fun item => item.productId != pid) }
  if pulled.items.any (fun item => item.productId == pid) then
    { pulled with total := calculateCartTotal pulled }
  else
    pulled

/-- `deleteProduct` from the product controller, restricted to the data
it mutates: pull the product's lines from every cart, recalculate totals
for the carts the follow-up query still matches, and delete the
product. -/
def deleteProduct (products : ProductStore) (carts : List Cart) (pid : Nat) :
    Except Err (ProductStore × List Cart) :=
  match products pid with
  | none => .error .productNotFound
  | some _ =>
    .ok ((fun i => if i = pid then none else products i), carts.map (pruneCart pid))

/-- The order-status transition relation exactly as the specification
states it (for the refinement claim about `updateOrderStatus`):
PENDING → CONFIRMED/CANCELLED, CONFIRMED → SHIPPED/CANCELLED,
SHIPPED → DELIVERED/CANCELLED, DELIVERED and CANCELLED terminal. -/
def specAllowedTransition : OrderStatus → OrderStatus → Bool
  | .PENDING, .CONFIRMED => true
  | .PENDING, .CANCELLED => true
  | .CONFIRMED, .SHIPPED => true
  | .CONFIRMED, .CANCELLED => true
  | .SHIPPED, .DELIVERED => true
  | .SHIPPED, .CANCELLED => true
  | _, _ => false

/-! Concrete fixtures used to exercise the endpoints on the spec's
scenarios. -/

/-- A store with no products. -/
def emptyStore : ProductStore := fun _ => none

/-- Scenario A's product catalogue: P1 with price 10, quantity 5, in
stock. -/
def storeP1 : ProductStore := fun i =>
  if i = 1 then some { name := "P1", price := 10, quantity := 5, inStock := true }
  else none

/-- Like `storeP1` but with P1 manually marked out of stock. -/
def storeP1off : ProductStore := fun i =>
  if i = 1 then some { name := "P1", price := 10, quantity := 5, inStock := false }
  else none

/-- Scenario A's cart line: qty 2 of P1 at unit price 10. -/
def cartItemA : CartItem :=
  { itemId := 0, productId := 1, productName := "P1", price := 10,
    quantity := 2, subtotal := 20 }

/-- Scenario A's cart. -/
def cartA : Cart := { items := [cartItemA], total := 20 }

/-- Scenario A's order line snapshot. -/
def orderItemA : OrderItem :=
  { productId := 1, productName := "P1", price := 10, quantity := 2, subtotal := 20 }

/-- A pending one-line order over P1. -/
def pendingOrderA : Order := { items := [orderItemA], total := 20, status := .PENDING }

/-- The same order already delivered. -/
def deliveredOrderA : Order := { items := [orderItemA], total := 20, status := .DELIVERED }

/-- Scenario A's initial state for `createOrder`. -/
def stateA : OrderState := { products := storeP1, cart := some cartA, orders := [] }

/-- Result of merging 2 more units of P1 into Scenario A's cart. -/
def cartAfterMerge : Cart :=
  { items := [{ itemId := 0, productId := 1, productName := "P1", price := 10,
                quantity := 4, subtotal := 40 }], total := 40 }

/-- Scenario A's cart line updated to quantity 3. -/
def cartItemUpd : CartItem :=
  { itemId := 0, productId := 1, productName := "P1", price := 10,
    quantity := 3, subtotal := 30 }

/-- Scenario A's cart after `updateCartItem` to quantity 3. -/
def cartAfterUpdate : Cart := { items := [cartItemUpd], total := 30 }

/-- A cart with no lines and zero total. -/
def cartEmptied : Cart := { items := [], total := 0 }

/-- Catalogue for the four-line atomicity scenario: products 1, 2 and 4
well stocked, product 3 with a single unit. -/
def store4 : ProductStore := fun i =>
  if i = 1 then some { name := "A", price := 5, quantity := 10, inStock := true }
  else if i = 2 then some { name := "B", price := 5, quantity := 10, inStock := true }
  else if i = 3 then some { name := "C", price := 5, quantity := 1, inStock := true }
  else if i = 4 then some { name := "D", price := 5, quantity := 10, inStock := true }
  else none

/-- Four-line cart whose third line asks for 2 units of the product with
only 1 unit left. -/
def cart4 : Cart :=
  { items := [{ itemId := 10, productId := 1, productName := "A", price := 5, quantity := 1, subtotal := 5 },
              { itemId := 11, productId := 2, productName := "B", price := 5, quantity := 1, subtotal := 5 },
              { itemId := 12, productId := 3, productName := "C", price := 5, quantity := 2, subtotal := 10 },
              { itemId := 13, productId := 4, productName := "D", price := 5, quantity := 1, subtotal := 5 }],
    total := 25 }

/-- Initial state for the four-line atomicity scenario. -/
def state4 : OrderState := { products := store4, cart := some cart4, orders := [] }

/-- Catalogue where product 1's current price (20) differs from the
price snapshot (10) a cart line took earlier. -/
def storeC7 : ProductStore := fun i =>
  if i = 1 then some { name := "A", price := 20, quantity := 10, inStock := true }
  else none

/-- A cart holding one unit of product 1 snapshotted at the old price
10. -/
def cartC7 : Cart :=
  { items := [{ itemId := 0, productId := 1, productName := "A", price := 10,
                quantity := 1, subtotal := 10 }], total := 10 }

/-- Catalogue with two products, used for the product-deletion
scenario. -/
def storeC6 : ProductStore := fun i =>
  if i = 1 then some { name := "A", price := 10, quantity := 5, inStock := true }
  else if i = 2 then some { name := "B", price := 20, quantity := 5, inStock := true }
  else none

/-- A cart holding one line for each of the two products (subtotals 10
and 20, total 30). -/
def cartC6 : Cart :=
  { items := [{ itemId := 0, productId := 1, productName := "A", price := 10,
                quantity := 1, subtotal := 10 },
              { itemId := 1, productId := 2, productName := "B", price := 20,
                quantity := 1, subtotal := 20 }], total := 30 }

/-! Helper lemmas about the stock loops and the list surgery
primitives. -/

/-- `reserveOne` leaves every other product id untouched. -/
theorem reserveOne_ne (store : ProductStore) (item : CartItem) (pid : Nat)
    (h : pid ≠ item.productId) : reserveOne store item pid = store pid := by
  unfold reserveOne
  cases hs : store item.productId with
  | none => rfl
  | some product => simp [setProduct, h]

/-- The reservation loop leaves product ids outside the cart
untouched. -/
theorem applyReservations_not_mem (items : List CartItem) (store : ProductStore)
    (pid : Nat) (h : pid ∉ items.map (fun i => i.productId)) :
    applyReservations store items pid = store pid := by
  induction items generalizing store with
  | nil => rfl
  | cons item rest ih =>
    simp only [List.map_cons, List.mem_cons, not_or] at h
    rw [applyReservations, ih _ h.2, reserveOne_ne _ _ _ h.1]

/-- With pairwise-distinct product ids, the reservation loop acts on
each line's product exactly once: subtract the line quantity and flip
`inStock` off exactly when the result is zero. -/
theorem applyReservations_mem (items : List CartItem) (store : ProductStore)
    (item : CartItem) (product : Product) (hmem : item ∈ items)
    (hnd : (items.map (fun i => i.productId)).Nodup)
    (hp : store item.productId = some product) :
    applyReservations store items item.productId =
      some { product with
             quantity := product.quantity - item.quantity,
             inStock := if product.quantity - item.quantity = 0 then false
                        else product.inStock } := by
  induction items generalizing store with
  | nil => cases hmem
  | cons head rest ih =>
    simp only [List.map_cons, List.nodup_cons] at hnd
    rcases List.mem_cons.mp hmem with h | h
    · subst h
      rw [applyReservations, applyReservations_not_mem _ _ _ hnd.1]
      unfold reserveOne
      rw [hp]
      simp [setProduct]
    · have hne : head.productId ≠ item.productId := by
        intro he
        exact hnd.1 (he ▸ List.mem_map_of_mem (fun i => i.productId) h)
      rw [applyReservations]
      exact ih _ h hnd.2 (by rw [reserveOne_ne _ _ _ hne.symm, hp])

/-- `releaseOne` leaves every other product id untouched. -/
theorem releaseOne_ne (store : ProductStore) (item : OrderItem) (pid : Nat)
    (h : pid ≠ item.productId) : releaseOne store item pid = store pid := by
  unfold releaseOne
  cases hs : store item.productId with
  | none => rfl
  | some product => simp [setProduct, h]

/-- The release loop leaves product ids outside the order untouched. -/
theorem applyReleases_not_mem (items : List OrderItem) (store : ProductStore)
    (pid : Nat) (h : pid ∉ items.map (fun i => i.productId)) :
    applyReleases store items pid = store pid := by
  induction items generalizing store with
  | nil => rfl
  | cons item rest ih =>
    simp only [List.map_cons, List.mem_cons, not_or] at h
    rw [applyReleases, ih _ h.2, releaseOne_ne _ _ _ h.1]

/-- With pairwise-distinct product ids, the release loop acts on each
line's product exactly once: add the line quantity back and force
`inStock` on. -/
theorem applyReleases_mem (items : List OrderItem) (store : ProductStore)
    (item : OrderItem) (product : Product) (hmem : item ∈ items)
    (hnd : (items.map (fun i => i.productId)).Nodup)
    (hp : store item.productId = some product) :
    applyReleases store items item.productId =
      some { product with quantity := product.quantity + item.quantity,
                          inStock := true } := by
  induction items generalizing store with
  | nil => cases hmem
  | cons head rest ih =>
    simp only [List.map_cons, List.nodup_cons] at hnd
    rcases List.mem_cons.mp hmem with h | h
    · subst h
      rw [applyReleases, applyReleases_not_mem _ _ _ hnd.1]
      unfold releaseOne
      rw [hp]
      simp [setProduct]
    · have hne : head.productId ≠ item.productId := by
        intro he
        exact hnd.1 (he ▸ List.mem_map_of_mem (fun i => i.productId) h)
      rw [applyReleases]
      exact ih _ h hnd.2 (by rw [releaseOne_ne _ _ _ hne.symm, hp])

/-- When every order line's product has vanished, the release loop is a
no-op on the store. -/
theorem applyReleases_missing (items : List OrderItem) (store : ProductStore)
    (h : ∀ item ∈ items, store item.productId = none) :
    applyReleases store items = store := by
  induction items with
  | nil => rfl
  | cons head rest ih =>
    have h1 : releaseOne store head = store := by
      unfold releaseOne
      rw [h head (List.mem_cons_self _ _)]
    rw [applyReleases, h1]
    exact ih fun item hm => h item (List.mem_cons_of_mem _ hm)

/-- When the validation loop passes, every cart line's product exists,
is flagged in stock and has enough quantity. -/
theorem validateStock_ok (store : ProductStore) (items : List CartItem)
    (h : validateStock store items = none) :
    ∀ item ∈ items, ∃ product, store item.productId = some product ∧
      product.inStock = true ∧ item.quantity ≤ product.quantity := by
  induction items with
  | nil =>
    intro item hm
    cases hm
  | cons head rest ih =>
    rw [validateStock] at h
    cases hp : store head.productId with
    | none =>
      rw [hp] at h
      exact Option.noConfusion h
    | some product =>
      simp only [hp] at h
      by_cases hc : product.inStock = false ∨ product.quantity < head.quantity
      · rw [if_pos hc] at h
        exact Option.noConfusion h
      · rw [if_neg hc] at h
        push_neg at hc
        intro item hm
        rcases List.mem_cons.mp hm with h2 | h2
        · subst h2
          exact ⟨product, hp, Bool.not_eq_false _ ▸ hc.1, hc.2⟩
        · exact ih h item h2

/-- Membership in the result of `updateFirst`: either an untouched
original line, or the image of the first line matching the predicate. -/
theorem mem_updateFirst (p : CartItem → Bool) (f : CartItem → CartItem)
    (items : List CartItem) (x : CartItem) (hx : x ∈ updateFirst p f items) :
    x ∈ items ∨ ∃ i, items.find? p = some i ∧ x = f i := by
  induction items with
  | nil => cases hx
  | cons head rest ih =>
    rw [updateFirst] at hx
    by_cases hp : p head
    · rw [if_pos hp] at hx
      rcases List.mem_cons.mp hx with h | h
      · exact Or.inr ⟨head, by rw [List.find?_cons_of_pos _ hp], h⟩
      · exact Or.inl (List.mem_cons_of_mem _ h)
    · rw [if_neg hp] at hx
      rcases List.mem_cons.mp hx with h | h
      · exact Or.inl (h ▸ List.mem_cons_self _ _)
      · rcases ih h with h2 | ⟨i, hf, he⟩
        · exact Or.inl (List.mem_cons_of_mem _ h2)
        · exact Or.inr ⟨i, by rw [List.find?_cons_of_neg _ hp, hf], he⟩

/-- Every line surviving `removeFirst` was in the original list. -/
theorem mem_removeFirst (p : CartItem → Bool) (items : List CartItem)
    (x : CartItem) (hx : x ∈ removeFirst p items) : x ∈ items := by
  induction items with
  | nil => cases hx
  | cons head rest ih =>
    rw [removeFirst] at hx
    by_cases hp : p head
    · rw [if_pos hp] at hx
      exact List.mem_cons_of_mem _ hx
    · rw [if_neg hp] at hx
      rcases List.mem_cons.mp hx with h | h
      · exact h ▸ List.mem_cons_self _ _
      · exact List.mem_cons_of_mem _ (ih h)

/-- Reduction of `cancelMyOrder` on a pending order. -/
theorem cancelMyOrder_pending (products : ProductStore) (order : Order)
    (h : order.status = .PENDING) :
    cancelMyOrder products (some order) =
      (.ok { order with status := .CANCELLED },
       (applyReleases products order.items,
        some { order with status := .CANCELLED })) := by
  simp only [cancelMyOrder, if_pos h]

/-- Reduction of `cancelMyOrder` on a non-pending order: the request is
rejected naming the current status and the state comes back
unchanged. -/
theorem cancelMyOrder_not_pending (products : ProductStore) (order : Order)
    (h : order.status ≠ .PENDING) :
    cancelMyOrder products (some order) =
      (.error (.invalidTransition order.status), (products, some order)) := by
  simp only [cancelMyOrder, if_neg h]

/-! Claim theorems. -/

/-- C1 (counterexample): the admin `updateOrderStatus` accepts the
transition PENDING → DELIVERED, which is not an edge of the
specification's order-status state machine, so the claim that only the
machine's edges are permitted is false. -/
theorem C1_counterexample :
    (updateOrderStatus storeP1 (some pendingOrderA) OrderStatus.DELIVERED).1 =
      .ok { items := [orderItemA], total := 20, status := .DELIVERED } ∧
    specAllowedTransition OrderStatus.PENDING OrderStatus.DELIVERED = false :=
  ⟨rfl, rfl⟩

/-- C1 (amended): `updateOrderStatus` rejects a request exactly when the
current status is DELIVERED or CANCELLED — failing with
`InvalidTransition` naming the current status and leaving the state
unchanged — and from PENDING, CONFIRMED or SHIPPED it permits a
transition to any status whatsoever. -/
theorem C1_terminal_guard_only (products : ProductStore) (order : Order)
    (newStatus : OrderStatus) :
    (order.status = .DELIVERED ∨ order.status = .CANCELLED →
      updateOrderStatus products (some order) newStatus =
        (.error (.invalidTransition order.status), (products, some order))) ∧
    (order.status ≠ .DELIVERED → order.status ≠ .CANCELLED →
      (updateOrderStatus products (some order) newStatus).1 =
        .ok { order with status := newStatus } ∧
      (updateOrderStatus products (some order) newStatus).2.2 =
        some { order with status := newStatus }) := by
  constructor
  · intro h
    simp only [updateOrderStatus, if_pos h]
  · intro h1 h2
    have hn : ¬(order.status = OrderStatus.DELIVERED ∨
        order.status = OrderStatus.CANCELLED) := by
      rintro (h | h)
      exacts [h1 h, h2 h]
    exact ⟨by simp only [updateOrderStatus, if_neg hn],
           by simp only [updateOrderStatus, if_neg hn]⟩

/-- C1 (witness): the guard fires on a DELIVERED order and lets a
PENDING order move to CONFIRMED. -/
theorem C1_witness :
    updateOrderStatus storeP1 (some deliveredOrderA) OrderStatus.CONFIRMED =
      (.error (.invalidTransition OrderStatus.DELIVERED),
       (storeP1, some deliveredOrderA)) ∧
    (updateOrderStatus storeP1 (some pendingOrderA) OrderStatus.CONFIRMED).1 =
      .ok { items := [orderItemA], total := 20, status := .CONFIRMED } := by
  constructor
  · exact (C1_terminal_guard_only storeP1 deliveredOrderA .CONFIRMED).1 (Or.inl rfl)
  · exact ((C1_terminal_guard_only storeP1 pendingOrderA .CONFIRMED).2
      (by decide) (by decide)).1

/-- C2: when the stock-validation loop of `createOrder` fails on any
cart line, the whole call returns that error and the state — products,
cart and persisted orders — is exactly the input state. -/
theorem C2_create_order_atomic (s : OrderState) (cart : Cart) (e : Err)
    (hc : s.cart = some cart)
    (hv : validateStock s.products cart.items = some e) :
    createOrder s = (.error e, s) := by
  have hne : ¬cart.items = [] := by
    intro h0
    rw [h0] at hv
    exact Option.noConfusion hv
  simp only [createOrder, hc, if_neg hne, hv]

/-- C2 (witness): the four-line cart whose third line over-asks leaves
the whole state untouched and reports the third product's shortage. -/
theorem C2_witness :
    createOrder state4 = (.error (.insufficientStockFor "C" 1), state4) :=
  C2_create_order_atomic state4 cart4 (.insufficientStockFor "C" 1) rfl rfl

/-- C4: after each of the four cart mutations completes successfully,
the cart's total equals the sum of its items' subtotals. -/
theorem C4_total_invariant (store : ProductStore) (cart0 : Option Cart)
    (pid newId iid : Nat) (q : Int) :
    (∀ c, addToCart store cart0 pid q newId = .ok c →
      c.total = calculateCartTotal c) ∧
    (∀ c, updateCartItem store cart0 iid q = .ok c →
      c.total = calculateCartTotal c) ∧
    (∀ c, removeFromCart cart0 iid = .ok c → c.total = calculateCartTotal c) ∧
    (∀ c, clearCart cart0 = .ok c → c.total = calculateCartTotal c) := by
  refine ⟨?_, ?_, ?_, ?_⟩
  · intro c h
    simp only [addToCart] at h
    split at h
    · exact Except.noConfusion h
    · split at h
      · exact Except.noConfusion h
      · split at h
        · split at h
          · exact Except.noConfusion h
          · cases h
            rfl
        · cases h
          rfl
  · intro c h
    simp only [updateCartItem] at h
    split at h
    · exact Except.noConfusion h
    · split at h
      · exact Except.noConfusion h
      · split at h
        · exact Except.noConfusion h
        · split at h
          · exact Except.noConfusion h
          · cases h
            rfl
  · intro c h
    simp only [removeFromCart] at h
    split at h
    · exact Except.noConfusion h
    · split at h
      · cases h
        rfl
      · exact Except.noConfusion h
  · intro c h
    simp only [clearCart] at h
    split at h
    · exact Except.noConfusion h
    · cases h
      rfl

/-- C4 (witness): the invariant holds on the concrete results of a
merge, an update and a removal over Scenario A's cart. -/
theorem C4_witness :
    cartAfterMerge.total = calculateCartTotal cartAfterMerge ∧
    cartAfterUpdate.total = calculateCartTotal cartAfterUpdate ∧
    cartEmptied.total = calculateCartTotal cartEmptied :=
  ⟨(C4_total_invariant storeP1 (some cartA) 1 7 0 2).1 cartAfterMerge rfl,
   (C4_total_invariant storeP1 (some cartA) 1 7 0 3).2.1 cartAfterUpdate rfl,
   (C4_total_invariant storeP1 (some cartA) 1 7 0 3).2.2.1 cartEmptied rfl⟩

/-- C6: deleting product 1 prunes its line from the cart but leaves the
cart's total at 30 while the remaining subtotals sum to 20 — the
recalculation query runs after the pull and matches no cart, so the
total is not recomputed and the invariant is broken. -/
theorem C6_delete_product_stale_total :
    (deleteProduct storeC6 [cartC6] 1).map
        (fun r => r.2.map (fun c => (c.total, calculateCartTotal c))) =
      .ok [(30, 20)] ∧ (30 : Int) ≠ 20 :=
  ⟨rfl, by decide⟩

/-- C9 (counterexample): `removeFromCart` on an existing cart with an
item id the cart does not contain fails with `ItemNotFound` instead of
succeeding. -/
theorem C9_counterexample :
    removeFromCart (some cartA) 99 = .error .itemNotFound := rfl

/-- C9 (amended): given an existing cart, `removeFromCart` succeeds
exactly when the cart holds a line with the requested item id (failing
with `ItemNotFound` otherwise) and recomputes the total on success;
`clearCart` always succeeds on an existing cart, leaving no items and a
zero total; both fail with `CartNotFound` when the cart is absent. -/
theorem C9_remove_clear_amended (cart : Cart) (itemId : Nat) :
    ((cart.items.any fun i => i.itemId == itemId) = true →
      ∃ c, removeFromCart (some cart) itemId = .ok c ∧
        c.total = calculateCartTotal c) ∧
    ((cart.items.any fun i => i.itemId == itemId) = false →
      removeFromCart (some cart) itemId = .error .itemNotFound) ∧
    (∃ c, clearCart (some cart) = .ok c ∧ c.total = 0 ∧ c.items = []) ∧
    removeFromCart none itemId = .error .cartNotFound ∧
    clearCart none = .error .cartNotFound := by
  refine ⟨?_, ?_, ⟨{ cart with items := [], total := 0 }, rfl, rfl, rfl⟩, rfl, rfl⟩
  · intro h
    have hc : removeFromCart (some cart) itemId =
        .ok { items := removeFirst (fun i => i.itemId == itemId) cart.items,
              total := calculateCartTotal
                { items := removeFirst (fun i => i.itemId == itemId) cart.items,
                  total := cart.total } } := by
      simp [removeFromCart, h]
    exact ⟨_, hc, rfl⟩
  · intro h
    simp [removeFromCart, h]

/-- C9 (witness): removing the one line of Scenario A's cart succeeds
with a recomputed total, and clearing the cart succeeds. -/
theorem C9_witness :
    (removeFromCart (some cartA) 0).isOk = true ∧
    cartEmptied.total = calculateCartTotal cartEmptied ∧
    (clearCart (some cartA)).isOk = true := by
  obtain ⟨h1, h2, h3, h4, h5⟩ := C9_remove_clear_amended cartA 0
  obtain ⟨c, hc, ht⟩ := h1 (by decide)
  refine ⟨by rw [hc]; rfl, ?_, ?_⟩
  · have he : c = cartEmptied :=
      Except.ok.inj (hc.symm.trans (rfl : removeFromCart (some cartA) 0 = .ok cartEmptied))
    rw [← he]
    exact ht
  · obtain ⟨c2, hc2, _⟩ := h3
    rw [hc2]
    rfl

/-- C3: when the user's cart is non-empty, its lines name pairwise
distinct products and every line passes stock validation, `createOrder`
succeeds: the order snapshots the cart items with the cart's total and
status PENDING, the cart is deleted, the order is persisted, each
ordered product's quantity drops by the ordered quantity with `inStock`
false exactly when the result is zero, and all other products are
untouched. -/
theorem C3_create_order_success (s : OrderState) (cart : Cart)
    (hc : s.cart = some cart) (hne : cart.items ≠ [])
    (hv : validateStock s.products cart.items = none)
    (hnd : (cart.items.map (fun i => i.productId)).Nodup) :
    (createOrder s).1 =
      .ok { items := cart.items.map toOrderItem, total := cart.total,
            status := .PENDING } ∧
    (createOrder s).2.cart = none ∧
    (createOrder s).2.orders =
      s.orders ++ [{ items := cart.items.map toOrderItem, total := cart.total,
                     status := .PENDING }] ∧
    (∀ item ∈ cart.items, ∃ product, s.products item.productId = some product ∧
      item.quantity ≤ product.quantity ∧
      (createOrder s).2.products item.productId =
        some { name := product.name, price := product.price,
               quantity := product.quantity - item.quantity,
               inStock := if product.quantity - item.quantity = 0 then false
                          else true }) ∧
    (∀ pid, pid ∉ cart.items.map (fun i => i.productId) →
      (createOrder s).2.products pid = s.products pid) := by
  have hco : createOrder s =
      (.ok { items := cart.items.map toOrderItem, total := cart.total,
             status := .PENDING },
       { products := applyReservations s.products cart.items, cart := none,
         orders := s.orders ++ [{ items := cart.items.map toOrderItem,
                                  total := cart.total, status := .PENDING }] }) := by
    simp only [createOrder, hc, if_neg hne, hv]
  refine ⟨by rw [hco], by rw [hco], by rw [hco], ?_, ?_⟩
  · intro item hm
    obtain ⟨product, hp, hs, hle⟩ :=
      validateStock_ok s.products cart.items hv item hm
    refine ⟨product, hp, hle, ?_⟩
    rw [hco]
    show applyReservations s.products cart.items item.productId = _
    rw [applyReservations_mem cart.items s.products item product hm hnd hp, hs]
  · intro pid hpid
    rw [hco]
    exact applyReservations_not_mem cart.items s.products pid hpid

/-- C3 (witness): Scenario A — a one-line cart (qty 2 at price 10)
against P1 with stock 5 yields an order with total 20 and status
PENDING, deletes the cart, and leaves P1 at quantity 3 still in
stock. -/
theorem C3_witness :
    (createOrder stateA).1 =
      .ok { items := [orderItemA], total := 20, status := .PENDING } ∧
    (createOrder stateA).2.cart = none ∧
    (createOrder stateA).2.products 1 =
      some { name := "P1", price := 10, quantity := 3, inStock := true } := by
  have h := C3_create_order_success stateA cartA rfl (by decide) rfl (by decide)
  refine ⟨h.1, h.2.1, ?_⟩
  obtain ⟨product, hp, hle, hres⟩ := h.2.2.2.1 cartItemA (List.mem_cons_self _ _)
  have h5 : (some { name := "P1", price := 10, quantity := 5, inStock := true } :
      Option Product) = some product := hp
  injection h5 with h6
  subst h6
  exact hres.trans (by decide)

/-- C5: `cancelMyOrder` rejects any non-PENDING order with
`InvalidTransition` naming the current status and changes nothing; on a
PENDING order whose line products all exist and are pairwise distinct it
sets the status to CANCELLED and, for every line, adds the ordered
quantity back to the product and forces `inStock` to true. -/
theorem C5_cancel_pending_only (products : ProductStore) (order : Order)
    (hnd : (order.items.map (fun i => i.productId)).Nodup)
    (hex : ∀ item ∈ order.items, (products item.productId).isSome = true) :
    (order.status ≠ .PENDING →
      cancelMyOrder products (some order) =
        (.error (.invalidTransition order.status), (products, some order))) ∧
    (order.status = .PENDING →
      (cancelMyOrder products (some order)).1 =
        .ok { order with status := .CANCELLED } ∧
      (cancelMyOrder products (some order)).2.2 =
        some { order with status := .CANCELLED } ∧
      ∀ item ∈ order.items, ∃ product, products item.productId = some product ∧
        (cancelMyOrder products (some order)).2.1 item.productId =
          some { name := product.name, price := product.price,
                 quantity := product.quantity + item.quantity,
                 inStock := true }) := by
  constructor
  · exact cancelMyOrder_not_pending products order
  · intro hp
    rw [cancelMyOrder_pending products order hp]
    refine ⟨rfl, rfl, ?_⟩
    intro item hm
    obtain ⟨product, hpe⟩ := Option.isSome_iff_exists.mp (hex item hm)
    exact ⟨product, hpe, applyReleases_mem order.items products item product hm hnd hpe⟩

/-- C5 (witness): Scenario C against a P1 that was manually marked out
of stock — cancellation restores quantity 5 + 2 = 7 and flips `inStock`
back to true unconditionally; a DELIVERED order is rejected naming
DELIVERED. -/
theorem C5_witness :
    (cancelMyOrder storeP1off (some pendingOrderA)).1 =
      .ok { items := [orderItemA], total := 20, status := .CANCELLED } ∧
    (cancelMyOrder storeP1off (some pendingOrderA)).2.1 1 =
      some { name := "P1", price := 10, quantity := 7, inStock := true } ∧
    cancelMyOrder storeP1off (some deliveredOrderA) =
      (.error (.invalidTransition OrderStatus.DELIVERED),
       (storeP1off, some deliveredOrderA)) := by
  have h := (C5_cancel_pending_only storeP1off pendingOrderA (by decide)
    (by decide)).2 rfl
  refine ⟨h.1, ?_, ?_⟩
  · obtain ⟨product, hpe, hres⟩ := h.2.2 orderItemA (List.mem_cons_self _ _)
    have h5 : (some { name := "P1", price := 10, quantity := 5, inStock := false } :
        Option Product) = some product := hpe
    injection h5 with h6
    subst h6
    exact hres.trans (by decide)
  · exact (C5_cancel_pending_only storeP1off deliveredOrderA (by decide)
      (by decide)).1 (by decide)

/-- C8: cancelling a PENDING order twice — the second call fails with
`InvalidTransition` on the already-CANCELLED order and leaves the state
of the first call untouched, so each line's product has received the
ordered quantity exactly once. -/
theorem C8_cancel_twice (products : ProductStore) (order : Order)
    (hp : order.status = .PENDING)
    (hnd : (order.items.map (fun i => i.productId)).Nodup)
    (hex : ∀ item ∈ order.items, (products item.productId).isSome = true) :
    (cancelMyOrder (cancelMyOrder products (some order)).2.1
        (cancelMyOrder products (some order)).2.2).1 =
      .error (.invalidTransition .CANCELLED) ∧
    (cancelMyOrder (cancelMyOrder products (some order)).2.1
        (cancelMyOrder products (some order)).2.2).2 =
      (cancelMyOrder products (some order)).2 ∧
    ∀ item ∈ order.items, ∃ product, products item.productId = some product ∧
      (cancelMyOrder (cancelMyOrder products (some order)).2.1
          (cancelMyOrder products (some order)).2.2).2.1 item.productId =
        some { name := product.name, price := product.price,
               quantity := product.quantity + item.quantity,
               inStock := true } := by
  simp only [cancelMyOrder_pending products order hp]
  rw [cancelMyOrder_not_pending (applyReleases products order.items)
    { order with status := .CANCELLED }
    (fun h0 => OrderStatus.noConfusion h0)]
  refine ⟨rfl, rfl, ?_⟩
  intro item hm
  obtain ⟨product, hpe⟩ := Option.isSome_iff_exists.mp (hex item hm)
  exact ⟨product, hpe, applyReleases_mem order.items products item product hm hnd hpe⟩

/-- C8 (witness): cancelling Scenario A's pending order twice — the
second call is rejected on the CANCELLED order and P1's quantity ends at
5 + 2 = 7, not 9. -/
theorem C8_witness :
    (cancelMyOrder (cancelMyOrder storeP1 (some pendingOrderA)).2.1
        (cancelMyOrder storeP1 (some pendingOrderA)).2.2).1 =
      .error (.invalidTransition .CANCELLED) ∧
    (cancelMyOrder (cancelMyOrder storeP1 (some pendingOrderA)).2.1
        (cancelMyOrder storeP1 (some pendingOrderA)).2.2).2.1 1 =
      some { name := "P1", price := 10, quantity := 7, inStock := true } := by
  have h := C8_cancel_twice storeP1 pendingOrderA rfl (by decide) (by decide)
  refine ⟨h.1, ?_⟩
  obtain ⟨product, hpe, hres⟩ := h.2.2 orderItemA (List.mem_cons_self _ _)
  have h5 : (some { name := "P1", price := 10, quantity := 5, inStock := true } :
      Option Product) = some product := hpe
  injection h5 with h6
  subst h6
  exact hres.trans (by decide)

/-- C10: when every line product of an order has been deleted, both
cancellation paths still succeed — the status becomes CANCELLED — while
the release loop silently skips every line, leaving the product store
exactly as it was and reporting no error. -/
theorem C10_missing_skipped (products : ProductStore) (order : Order)
    (hmiss : ∀ item ∈ order.items, products item.productId = none) :
    (order.status = .PENDING →
      cancelMyOrder products (some order) =
        (.ok { order with status := .CANCELLED },
         (products, some { order with status := .CANCELLED }))) ∧
    (order.status ≠ .DELIVERED → order.status ≠ .CANCELLED →
      updateOrderStatus products (some order) .CANCELLED =
        (.ok { order with status := .CANCELLED },
         (products, some { order with status := .CANCELLED }))) := by
  have hrel : applyReleases products order.items = products :=
    applyReleases_missing order.items products hmiss
  constructor
  · intro hp
    rw [cancelMyOrder_pending products order hp, hrel]
  · intro h1 h2
    have hn : ¬(order.status = OrderStatus.DELIVERED ∨
        order.status = OrderStatus.CANCELLED) := by
      rintro (h | h)
      exacts [h1 h, h2 h]
    simp only [updateOrderStatus, if_neg hn, if_pos rfl, hrel, ite_self]

/-- C10 (witness): cancelling Scenario A's pending order when the store
no longer holds any product — both endpoints succeed and the store is
unchanged. -/
theorem C10_witness :
    cancelMyOrder emptyStore (some pendingOrderA) =
      (.ok { items := [orderItemA], total := 20, status := .CANCELLED },
       (emptyStore, some { items := [orderItemA], total := 20,
                           status := .CANCELLED })) ∧
    updateOrderStatus emptyStore (some pendingOrderA) .CANCELLED =
      (.ok { items := [orderItemA], total := 20, status := .CANCELLED },
       (emptyStore, some { items := [orderItemA], total := 20,
                           status := .CANCELLED })) := by
  have h := C10_missing_skipped emptyStore pendingOrderA (by decide)
  exact ⟨h.1 rfl, h.2 (by decide) (by decide)⟩

/-- C7 (counterexample): merging one more unit into a line snapshotted
at price 10 while the product now costs 20 yields quantity 2 and
subtotal 40 with the stored price still 10 — so subtotal ≠ stored price
× quantity after the merge. -/
theorem C7_counterexample :
    (addToCart storeC7 (some cartC7) 1 1 5).map
        (fun c => c.items.map (fun i => (i.price, i.quantity, i.subtotal))) =
      .ok [(10, 2, 40)] ∧ (10 : Int) * 2 ≠ 40 :=
  ⟨rfl, by decide⟩

/-- C7 (amended): when every line of the cart satisfies subtotal =
stored price × quantity, the invariant still holds after a successful
`updateCartItem`, `removeFromCart`, `clearCart`, or an `addToCart` that
inserts a new line; for an `addToCart` that merges into an existing
line it holds provided the product's current price equals that line's
stored snapshot price — the merge recomputes the subtotal from the
current product price and leaves the stored snapshot unchanged. -/
theorem C7_subtotal_snapshot_amended (store : ProductStore) (cart : Cart)
    (pid newId iid : Nat) (q : Int)
    (hinv : ∀ item ∈ cart.items, item.subtotal = item.price * item.quantity) :
    (∀ c, updateCartItem store (some cart) iid q = .ok c →
      ∀ item ∈ c.items, item.subtotal = item.price * item.quantity) ∧
    (∀ c, removeFromCart (some cart) iid = .ok c →
      ∀ item ∈ c.items, item.subtotal = item.price * item.quantity) ∧
    (∀ c, clearCart (some cart) = .ok c →
      ∀ item ∈ c.items, item.subtotal = item.price * item.quantity) ∧
    (cart.items.find? (fun item => item.productId == pid) = none →
      ∀ c, addToCart store (some cart) pid q newId = .ok c →
        ∀ item ∈ c.items, item.subtotal = item.price * item.quantity) ∧
    (∀ item0 product, store pid = some product →
      cart.items.find? (fun item => item.productId == pid) = some item0 →
      product.price = item0.price →
      ∀ c, addToCart store (some cart) pid q newId = .ok c →
        ∀ item ∈ c.items, item.subtotal = item.price * item.quantity) := by
  refine ⟨?_, ?_, ?_, ?_, ?_⟩
  · intro c h
    simp only [updateCartItem] at h
    split at h
    · exact Except.noConfusion h
    · split at h
      · exact Except.noConfusion h
      · split at h
        · exact Except.noConfusion h
        · cases h
          intro item hm
          rcases mem_updateFirst _ _ _ _ hm with h2 | ⟨i, hf, he⟩
          · exact hinv item h2
          · subst he
            rfl
  · intro c h
    simp only [removeFromCart] at h
    split at h
    · cases h
      intro item hm
      exact hinv item (mem_removeFirst _ _ _ hm)
    · exact Except.noConfusion h
  · intro c h
    simp only [clearCart] at h
    cases h
    intro item hm
    cases hm
  · intro hfind c h
    simp only [addToCart, Option.getD_some, hfind] at h
    split at h
    · exact Except.noConfusion h
    · split at h
      · exact Except.noConfusion h
      · cases h
        intro item hm
        rcases List.mem_append.mp hm with h2 | h2
        · exact hinv item h2
        · rcases List.mem_singleton.mp h2 with rfl
          rfl
  · intro item0 product hp hfind hprice c h
    simp only [addToCart, Option.getD_some, hp, hfind] at h
    split at h
    · exact Except.noConfusion h
    · split at h
      · exact Except.noConfusion h
      · cases h
        intro item hm
        rcases mem_updateFirst _ _ _ _ hm with h2 | ⟨i, hf, he⟩
        · exact hinv item h2
        · have hi : i = item0 := Option.some.inj (hf.symm.trans hfind)
          subst hi
          subst he
          show product.price * (i.quantity + q) = i.price * (i.quantity + q)
          rw [hprice]

/-- C7 (witness): after `updateCartItem` sets Scenario A's line to
quantity 3, that line satisfies subtotal = stored price × quantity
(10 × 3 = 30). -/
theorem C7_witness :
    cartItemUpd.subtotal = cartItemUpd.price * cartItemUpd.quantity := by
  have h := C7_subtotal_snapshot_amended storeP1 cartA 1 7 0 3 (by decide)
  exact h.1 cartAfterUpdate rfl cartItemUpd (List.mem_cons_self _ _)

end Shop
